import Mathlib

/-!
Verification of the word_learn spaced-repetition engine.

Shallow embedding of the Python sources under `src/word_learn/`:
pure services (`spaced_repetition.py`, `streaks.py`, `stage_labels.py`,
`insights_generator.py`, `session_messages.py`, `stats_formatter.py`)
become Lean functions; the PostgreSQL-backed repository
(`repositories/practice_repository.py`) becomes explicit state passing
over a `DB` record whose fields mirror the tables, and the service and
handler layers (`services/practice_service.py`, `handlers/practice.py`)
become functions on that state.  Randomness (`random.randint`,
`ORDER BY RANDOM()`) is isolated into explicit parameters.
-/

namespace WordLearn

/-! ## spaced_repetition.py -/

/-- Maximum stage, `spaced_repetition.py` line 19. -/
def MAX_STAGE : ℤ := 33

/-- `calculate_days_until_review` (`spaced_repetition.py` lines 22-44).
The stage is capped above with `min(stage, MAX_STAGE)`; there is no
lower clamp.  For stages above 1 Python adds `random.randint(0, 1)`,
modelled by the explicit draw `r`.  Python computes `2 ** (stage - 1)`,
which for a negative exponent is an exact dyadic float, so the result
type is ℚ. -/
def calculate_days_until_review (stage : ℤ) (r : ℕ) : ℚ :=
  let stage := min stage MAX_STAGE
  if stage = 0 then 0
  else
    let diff_days : ℚ := (2 : ℚ) ^ (stage - 1)
    if 1 < stage then diff_days + r else diff_days

/-- A Python `datetime`: calendar day plus time-of-day (minutes past
midnight); `date` values are embedded as the day number alone. -/
structure PyDateTime where
  day : ℤ
  minute : ℕ
deriving DecidableEq

/-- Boolean order on datetimes (lexicographic), used for the SQL
comparisons `next_date <= $n`. -/
def PyDateTime.le (a b : PyDateTime) : Bool :=
  a.day < b.day || (a.day = b.day && a.minute ≤ b.minute)

/-- `calculate_next_date` (`spaced_repetition.py` lines 47-60):
`base_date + timedelta(days=days)` at midnight.  `date + timedelta`
in Python advances by `timedelta.days`, the floor of the (possibly
fractional) day count. -/
def calculate_next_date (base_date : ℤ) (stage : ℤ) (r : ℕ) : PyDateTime :=
  ⟨base_date + ⌊calculate_days_until_review stage r⌋, 0⟩

/-- `get_new_stage_correct` (`spaced_repetition.py` lines 63-72). -/
def get_new_stage_correct (current_stage : ℤ) : ℤ :=
  min (current_stage + 1) MAX_STAGE

/-- `get_new_stage_incorrect` (`spaced_repetition.py` lines 75-81). -/
def get_new_stage_incorrect : ℤ := 1

/-! ## stage_labels.py -/

/-- `STAGE_LABELS` (`stage_labels.py` lines 3-11). -/
def STAGE_LABELS : List (ℤ × String) :=
  [(0, "Unknown"), (1, "Just learned"), (2, "Learning"),
   (3, "Getting familiar"), (4, "Familiar"), (5, "Confident"),
   (6, "Well known")]

def MAX_LABELED_STAGE : ℤ := 7

def KNOW_BY_HEART_LABEL : String := "Know by heart"

/-- `get_stage_label` (`stage_labels.py` lines 17-28): stages at or
above 7 map to the know-by-heart label, otherwise a dict lookup with
the same label as default. -/
def get_stage_label (stage : ℤ) : String :=
  if stage ≥ MAX_LABELED_STAGE then KNOW_BY_HEART_LABEL
  else ((STAGE_LABELS.lookup stage).getD KNOW_BY_HEART_LABEL)

/-! ## streaks.py -/

/-- `STREAK_MILESTONES` (`streaks.py` lines 6-20). -/
def STREAK_MILESTONES : List (ℤ × String) :=
  [(3, "Warm-Up Run"), (7, "Week Warrior"), (14, "Fortnight Force"),
   (21, "Habit Locked"), (30, "Month Master"), (40, "Momentum Maker"),
   (60, "Two-Month Titan"), (90, "Seasoned Streak"),
   (120, "Quarter Champion"), (180, "Half-Year Hero"),
   (240, "Eight-Month Engine"), (300, "Three-Hundred Club"),
   (365, "Year Legend")]

/-- `compute_streak_update` (`streaks.py` lines 23-41).  Dates are day
numbers, so `today - timedelta(days=1)` is `today - 1`. -/
def compute_streak_update (last_active : Option ℤ) (current_streak : ℤ)
    (today : ℤ) : ℤ × ℤ :=
  match last_active with
  | none => (1, today)
  | some la =>
    if la > today then (max current_streak 1, today)
    else if la = today then (max current_streak 1, today)
    else if la = today - 1 then (max current_streak 1 + 1, today)
    else (1, today)

/-- `get_streak_label` (`streaks.py` lines 44-46). -/
def get_streak_label (streak_days : ℤ) : Option String :=
  STREAK_MILESTONES.lookup streak_days

/-- `format_streak_line` (`streaks.py` lines 49-55). -/
def format_streak_line (streak_days : ℤ) : String :=
  let day_label := if streak_days = 1 then "day" else "days"
  match get_streak_label streak_days with
  | some label =>
      "🔥 Streak: " ++ toString streak_days ++ " " ++ day_label ++
        " (" ++ label ++ ")"
  | none => "🔥 Streak: " ++ toString streak_days ++ " " ++ day_label

end WordLearn

namespace WordLearn

/-! ## Theorems for the pure calculator, streak and label claims -/

/-- C4 counterexample: `calculate_days_until_review` does not clamp
negative stages.  At stage `-1` the code computes `2 ^ (-2) = 1/4`
(a fractional value), which differs from the value at the clamped
stage `0` and is not a nonnegative integer. -/
theorem c4_counterexample :
    calculate_days_until_review (-1) 0 ≠ calculate_days_until_review 0 0 ∧
    ¬ ∃ n : ℕ, calculate_days_until_review (-1) 0 = (n : ℚ) := by
  have h : calculate_days_until_review (-1) 0 = 1 / 4 := by
    norm_num [calculate_days_until_review, MAX_STAGE, min_def]
  constructor
  · rw [h]
    norm_num [calculate_days_until_review, MAX_STAGE, min_def]
  · rintro ⟨n, hn⟩
    rw [h] at hn
    rcases n with _ | m
    · norm_num at hn
    · have h1 : (1 : ℚ) ≤ ((m + 1 : ℕ) : ℚ) := by
        exact_mod_cast Nat.succ_le_succ (Nat.zero_le m)
      rw [← hn] at h1
      norm_num at h1

/-- C4 amended: the stage is capped only from above at `MAX_STAGE`
(the result always equals the result at `min stage MAX_STAGE`), and
for every nonnegative stage the result is a nonnegative integer;
negative stages are not clamped. -/
theorem c4_amended_thm (stage : ℤ) (r : ℕ) :
    calculate_days_until_review stage r =
      calculate_days_until_review (min stage MAX_STAGE) r ∧
    (0 ≤ stage → ∃ n : ℕ, calculate_days_until_review stage r = (n : ℚ)) := by
  constructor
  · simp only [calculate_days_until_review, min_assoc, min_self]
  · intro h
    simp only [calculate_days_until_review]
    have hs0 : 0 ≤ min stage MAX_STAGE := le_min h (by norm_num [MAX_STAGE])
    by_cases h0 : min stage MAX_STAGE = 0
    · refine ⟨0, ?_⟩
      simp [h0]
    · have h1 : 1 ≤ min stage MAX_STAGE := by omega
      have hnn : 0 ≤ min stage MAX_STAGE - 1 := by omega
      obtain ⟨m, hm⟩ : ∃ m : ℕ, min stage MAX_STAGE - 1 = (m : ℤ) :=
        ⟨(min stage MAX_STAGE - 1).toNat, (Int.toNat_of_nonneg hnn).symm⟩
      have hp : (2 : ℚ) ^ (min stage MAX_STAGE - 1) = ((2 ^ m : ℕ) : ℚ) := by
        rw [hm, zpow_natCast]
        push_cast
        ring
      by_cases h2 : 1 < min stage MAX_STAGE
      · refine ⟨2 ^ m + r, ?_⟩
        simp only [h0, h2, if_false, if_true, hp]
        push_cast
        ring
      · refine ⟨2 ^ m, ?_⟩
        simp only [h0, h2, if_false, hp]

/-- C4 amended, witness at stage 40 (above `MAX_STAGE`) and draw 1. -/
theorem c4_amended_witness :
    calculate_days_until_review 40 1 =
      calculate_days_until_review (min 40 MAX_STAGE) 1 ∧
    ∃ n : ℕ, calculate_days_until_review 40 1 = (n : ℚ) :=
  ⟨(c4_amended_thm 40 1).1, (c4_amended_thm 40 1).2 (by norm_num)⟩

/-- C8: review-interval formula on the legal stage range and stage
transitions.  Stage 0 gives 0 days for every draw; stage 1 gives
exactly 1 day with the draw unused; for `1 < n ≤ MAX_STAGE` the
result is `2 ^ (n - 1)` plus the draw (so with the draw fixed to 0 it
is exactly `2 ^ (n - 1)`); `get_new_stage_correct` is
`min (stage + 1) MAX_STAGE` and leaves `MAX_STAGE` fixed;
`get_new_stage_incorrect` is always 1. -/
theorem c8_thm :
    (∀ r : ℕ, calculate_days_until_review 0 r = 0) ∧
    (∀ r : ℕ, calculate_days_until_review 1 r = 1) ∧
    (∀ n : ℤ, 1 < n → n ≤ MAX_STAGE → ∀ r : ℕ, r ≤ 1 →
      calculate_days_until_review n r = (2 : ℚ) ^ (n - 1) + (r : ℚ)) ∧
    (∀ n : ℤ, 1 < n → n ≤ MAX_STAGE →
      calculate_days_until_review n 0 = (2 : ℚ) ^ (n - 1)) ∧
    (∀ stage : ℤ, get_new_stage_correct stage = min (stage + 1) MAX_STAGE) ∧
    get_new_stage_correct MAX_STAGE = MAX_STAGE ∧
    get_new_stage_incorrect = 1 := by
  refine ⟨?_, ?_, ?_, ?_, fun stage => rfl, by norm_num [get_new_stage_correct, MAX_STAGE], rfl⟩
  · intro r
    norm_num [calculate_days_until_review, MAX_STAGE, min_def]
  · intro r
    norm_num [calculate_days_until_review, MAX_STAGE, min_def]
  · intro n h1 h2 r _
    have hmin : min n MAX_STAGE = n := min_eq_left h2
    simp only [calculate_days_until_review, hmin]
    rw [if_neg (by omega), if_pos h1]
  · intro n h1 h2
    have hmin : min n MAX_STAGE = n := min_eq_left h2
    simp only [calculate_days_until_review, hmin]
    rw [if_neg (by omega), if_pos h1]
    norm_num

/-- C8 witness at stage 5 with draws 0 and 1. -/
theorem c8_witness :
    calculate_days_until_review 0 1 = 0 ∧
    calculate_days_until_review 1 1 = 1 ∧
    calculate_days_until_review 5 1 = (2 : ℚ) ^ ((5 : ℤ) - 1) + ((1 : ℕ) : ℚ) ∧
    calculate_days_until_review 5 0 = (2 : ℚ) ^ ((5 : ℤ) - 1) ∧
    get_new_stage_correct 5 = min (5 + 1) MAX_STAGE ∧
    get_new_stage_correct MAX_STAGE = MAX_STAGE ∧
    get_new_stage_incorrect = 1 :=
  ⟨c8_thm.1 1, c8_thm.2.1 1,
   c8_thm.2.2.1 5 (by norm_num) (by norm_num [MAX_STAGE]) 1 (by norm_num),
   c8_thm.2.2.2.1 5 (by norm_num) (by norm_num [MAX_STAGE]),
   c8_thm.2.2.2.2.1 5, c8_thm.2.2.2.2.2.1, c8_thm.2.2.2.2.2.2⟩

/-- C6 counterexample: with a stored streak of 0 and last activity
exactly one day before today, the code returns `max(0, 1) + 1 = 2`,
not the claimed increment-by-one result `0 + 1 = 1`. -/
theorem c6_counterexample :
    compute_streak_update (some 9) 0 10 ≠ (0 + 1, 10) := by decide

/-- C6 amended: the five cases of `compute_streak_update`, with the
day-before case incrementing the floored value `max(current, 1)` by 1
rather than the raw current streak. -/
theorem c6_amended_thm (current_streak today : ℤ) :
    compute_streak_update none current_streak today = (1, today) ∧
    compute_streak_update (some today) current_streak today =
      (max current_streak 1, today) ∧
    compute_streak_update (some (today - 1)) current_streak today =
      (max current_streak 1 + 1, today) ∧
    (∀ la : ℤ, today < la →
      compute_streak_update (some la) current_streak today =
        (max current_streak 1, today)) ∧
    (∀ la : ℤ, la ≤ today - 2 →
      compute_streak_update (some la) current_streak today = (1, today)) := by
  refine ⟨rfl, ?_, ?_, ?_, ?_⟩
  · simp only [compute_streak_update]
    split_ifs <;> first | rfl | omega
  · simp only [compute_streak_update]
    split_ifs <;> first | rfl | omega
  · intro la hla
    simp only [compute_streak_update]
    split_ifs <;> first | rfl | omega
  · intro la hla
    simp only [compute_streak_update]
    split_ifs <;> first | rfl | omega

/-- C6 amended, witness with current streak 5 and today = day 10. -/
theorem c6_amended_witness :
    compute_streak_update none 5 10 = (1, 10) ∧
    compute_streak_update (some 10) 5 10 = (max 5 1, 10) ∧
    compute_streak_update (some (10 - 1)) 5 10 = (max 5 1 + 1, 10) ∧
    compute_streak_update (some 12) 5 10 = (max 5 1, 10) ∧
    compute_streak_update (some 7) 5 10 = (1, 10) :=
  ⟨(c6_amended_thm 5 10).1, (c6_amended_thm 5 10).2.1,
   (c6_amended_thm 5 10).2.2.1,
   (c6_amended_thm 5 10).2.2.2.1 12 (by norm_num),
   (c6_amended_thm 5 10).2.2.2.2 7 (by norm_num)⟩

/-- C10: the stage-label mapper is total over ℤ, and every stage
outside the labelled range 0..6 (negative stages included) maps to
the know-by-heart label. -/
theorem c10_thm (stage : ℤ) (h : stage < 0 ∨ 6 < stage) :
    get_stage_label stage = KNOW_BY_HEART_LABEL := by
  rcases h with h | h
  · have h7 : ¬ stage ≥ MAX_LABELED_STAGE := by
      simp only [MAX_LABELED_STAGE]
      omega
    simp only [get_stage_label, if_neg h7, STAGE_LABELS, List.lookup]
    have e0 : (stage == 0) = false := by simp; omega
    have e1 : (stage == 1) = false := by simp; omega
    have e2 : (stage == 2) = false := by simp; omega
    have e3 : (stage == 3) = false := by simp; omega
    have e4 : (stage == 4) = false := by simp; omega
    have e5 : (stage == 5) = false := by simp; omega
    have e6 : (stage == 6) = false := by simp; omega
    simp [e0, e1, e2, e3, e4, e5, e6]
  · have h7 : stage ≥ MAX_LABELED_STAGE := by
      simp only [MAX_LABELED_STAGE]
      omega
    simp [get_stage_label, if_pos h7]

/-- C10 witness at stage -5. -/
theorem c10_witness : get_stage_label (-5) = KNOW_BY_HEART_LABEL :=
  c10_thm (-5) (Or.inl (by norm_num))

end WordLearn

namespace WordLearn

/-! ## Data models (`models/session_word_result.py`, `models/practice_stats.py`) -/

/-- `SessionWordResult` (`models/session_word_result.py`): per-word
outcome recorded during a session; `new_stage` is `none` for deleted
words; `result` is one of "correct", "incorrect", "deleted". -/
structure SessionWordResult where
  chat_id : ℤ
  word_id : ℤ
  result : String
  old_stage : ℤ
  new_stage : Option ℤ
  word_source : String
  word_target : String
deriving DecidableEq

/-- `SessionStats` (`models/practice_stats.py` lines 41-54). -/
structure SessionStats where
  correct_words : List SessionWordResult
  incorrect_words : List SessionWordResult
  deleted_words : List SessionWordResult
  total_correct : ℤ
  total_count : ℤ
deriving DecidableEq

/-- `SessionStats.accuracy_text`. -/
def SessionStats.accuracy_text (s : SessionStats) : String :=
  toString s.total_correct ++ "/" ++ toString s.total_count

/-- `PracticeStats` (`models/practice_stats.py` lines 11-38). -/
structure PracticeStats where
  chat_id : ℤ
  correct : ℤ
  total : ℤ
deriving DecidableEq

/-- `PracticeStats.accuracy_text`. -/
def PracticeStats.accuracy_text (s : PracticeStats) : String :=
  toString s.correct ++ "/" ++ toString s.total

/-! ## insights_generator.py -/

/-- An `Insight` (emoji + text), `insights_generator.py` lines 7-11. -/
structure Insight where
  emoji : String
  text : String
deriving DecidableEq

/-- `MILESTONES` (`insights_generator.py` line 16). -/
def MILESTONES : List ℤ :=
  [10, 25, 50, 100, 200, 300, 400, 500, 750, 1000, 1500, 2000, 3000, 5000]

def KNOW_BY_HEART_STAGE : ℤ := 7

def CONFIDENT_STAGE : ℤ := 5

def MIN_CONSECUTIVE_FAILURES : ℤ := 2

/-- Python `_check_perfect_round` (`insights_generator.py` lines 28-35). -/
def check_perfect_round (stats : SessionStats) : Option Insight :=
  if stats.total_count > 0 ∧ stats.total_correct = stats.total_count then
    some ⟨"🎯", "Идеальный раунд! " ++ toString stats.total_correct ++ "/" ++
      toString stats.total_count ++ "!"⟩
  else none

/-- Python `_check_know_by_heart` (`insights_generator.py` lines 38-53).
The loop appends one insight per qualifying correct word, in order,
which is `List.filterMap`. -/
def check_know_by_heart (stats : SessionStats) : List Insight :=
  stats.correct_words.filterMap fun word =>
    match word.new_stage with
    | some ns =>
      if ns ≥ KNOW_BY_HEART_STAGE ∧ word.old_stage < KNOW_BY_HEART_STAGE then
        some ⟨"⭐", "\x27" ++ word.word_source ++ "\x27 теперь Know by heart!"⟩
      else none
    | none => none

/-- Python `_check_struggling_words` (`insights_generator.py` lines
56-71); the Python dict lookup with default 0 becomes an association
list lookup with default 0. -/
def check_struggling_words (stats : SessionStats)
    (consecutive_failures : List (ℤ × ℤ)) : List Insight :=
  stats.incorrect_words.filterMap fun word =>
    let failures := (consecutive_failures.lookup word.word_id).getD 0
    if failures ≥ MIN_CONSECUTIVE_FAILURES then
      some ⟨"💡", "\x27" ++ word.word_source ++ "\x27 пока не даётся"⟩
    else none

/-- Python `_check_milestone` (`insights_generator.py` lines 74-85):
the loop returns the first milestone in the ascending list with
`previous < m <= confident`. -/
def check_milestone (confident_count previous_confident_count : ℤ) :
    Option Insight :=
  (MILESTONES.find? fun m =>
      previous_confident_count < m && m ≤ confident_count).map
    fun milestone =>
      ⟨"🏆", "У тебя уже " ++ toString milestone ++
        " слов на уровне Confident и выше!"⟩

/-- `generate_insights` (`insights_generator.py` lines 88-123). -/
def generate_insights (stats : SessionStats)
    (consecutive_failures : List (ℤ × ℤ))
    (confident_count previous_confident_count : ℤ) : List Insight :=
  let insights : List Insight := []
  let insights := match check_perfect_round stats with
    | some perfect => insights ++ [perfect]
    | none => insights
  let insights := insights ++ check_know_by_heart stats
  let insights := insights ++ check_struggling_words stats consecutive_failures
  let insights :=
    match check_milestone confident_count previous_confident_count with
    | some milestone => insights ++ [milestone]
    | none => insights
  insights

/-! ## session_messages.py -/

/-- `format_session_complete_message` (`session_messages.py` lines
6-30).  `words_remaining` is a nonnegative count; a Python dataclass
instance is always truthy, so `if stats and stats.total > 0` is
"stats present and total positive". -/
def format_session_complete_message (words_remaining : ℕ)
    (stats : Option PracticeStats) (streak_days : Option ℤ) : String :=
  if words_remaining > 0 then toString words_remaining ++ " words left"
  else
    let text := "Practiced all words!"
    let text := match stats with
      | some st =>
        if st.total > 0 then
          text ++ "\n" ++ st.accuracy_text ++ " of words were guessed correctly"
        else text
      | none => text
    match streak_days with
    | some d => text ++ "\n" ++ format_streak_line d
    | none => text

/-! ## stats_formatter.py -/

/-- Python `format_stage_transition` (`stats_formatter.py` lines 10-32). -/
def format_stage_transition (old_stage : ℤ) (new_stage : Option ℤ) : String :=
  let old_label := get_stage_label old_stage
  match new_stage with
  | none => old_label ++ " (" ++ toString old_stage ++ ")"
  | some ns =>
    if old_stage = ns then old_label ++ " (" ++ toString old_stage ++ ")"
    else
      let new_label := get_stage_label ns
      old_label ++ " (" ++ toString old_stage ++ ") → " ++ new_label ++
        " (" ++ toString ns ++ ")"

/-- Python `_format_word_entry` (`stats_formatter.py` lines 35-45). -/
def format_word_entry (result : SessionWordResult) : String :=
  "• " ++ result.word_source ++ " → " ++ result.word_target ++ ": " ++
    format_stage_transition result.old_stage result.new_stage

/-- `format_insights` (`stats_formatter.py` lines 48-64). -/
def format_insights (insights : List Insight) : String :=
  if insights.isEmpty then ""
  else
    String.intercalate "\n"
      (["", "💡 Practice Insights:"] ++
        insights.map fun i => "• " ++ i.emoji ++ " " ++ i.text)

/-- `format_session_stats` (`stats_formatter.py` lines 67-111).  The
Python `insights` argument is `None` or a list; `None` and `[]`
behave identically under `if insights:`, so both are the empty
list here. -/
def format_session_stats (stats : SessionStats) (insights : List Insight) :
    String :=
  let lines := ["Practiced all words!"]
  let lines := if stats.total_count > 0 then
    lines ++ [stats.accuracy_text ++ " of words were guessed correctly"]
    else lines
  let lines := if stats.correct_words.isEmpty then lines
    else lines ++ ["", "✅ Correct:"] ++ stats.correct_words.map format_word_entry
  let lines := if stats.incorrect_words.isEmpty then lines
    else lines ++ ["", "❌ Incorrect:"] ++ stats.incorrect_words.map format_word_entry
  let lines := if stats.deleted_words.isEmpty then lines
    else lines ++ ["", "🗑️ Deleted:"] ++ stats.deleted_words.map format_word_entry
  let lines := if insights.isEmpty then lines
    else lines ++ [format_insights insights]
  String.intercalate "\n" lines

end WordLearn

namespace WordLearn

/-! ## Claim-side descriptions (written from the spec wording, for the
refinement claims C7 and C9) -/

/-- C7 claim-side description of the insights output: the four rules
evaluated independently and concatenated in the fixed order
perfect-round, know-by-heart, struggling, milestone; the milestone
insight (at most one) is for the smallest milestone `m` with
`previousConfidentCount < m <= confidentCount`, expressed here as the
minimum of the qualifying milestones. -/
def insights_per_claim (stats : SessionStats)
    (consecutive_failures : List (ℤ × ℤ))
    (confident_count previous_confident_count : ℤ) : List Insight :=
  (if stats.total_count > 0 ∧ stats.total_correct = stats.total_count then
      [⟨"🎯", "Идеальный раунд! " ++ toString stats.total_correct ++ "/" ++
        toString stats.total_count ++ "!"⟩]
    else []) ++
  (stats.correct_words.filterMap fun word =>
    match word.new_stage with
    | some ns =>
      if word.old_stage < 7 ∧ 7 ≤ ns then
        some ⟨"⭐", "\x27" ++ word.word_source ++ "\x27 теперь Know by heart!"⟩
      else none
    | none => none) ++
  (stats.incorrect_words.filterMap fun word =>
    if 2 ≤ (consecutive_failures.lookup word.word_id).getD 0 then
      some ⟨"💡", "\x27" ++ word.word_source ++ "\x27 пока не даётся"⟩
    else none) ++
  (match (MILESTONES.filter fun m =>
      previous_confident_count < m && m ≤ confident_count).min? with
   | some m => [⟨"🏆", "У тебя уже " ++ toString m ++
      " слов на уровне Confident и выше!"⟩]
   | none => [])

/-- C9 claim-side description of the batch-completion message. -/
def session_complete_message_per_claim (words_remaining : ℕ)
    (stats : Option PracticeStats) (streak_days : Option ℤ) : String :=
  if words_remaining > 0 then toString words_remaining ++ " words left"
  else
    "Practiced all words!" ++
      (match stats with
       | some st =>
         if st.total > 0 then
           "\n" ++ toString st.correct ++ "/" ++ toString st.total ++
             " of words were guessed correctly"
         else ""
       | none => "") ++
      (match streak_days with
       | some d => "\n" ++ format_streak_line d
       | none => "")

/-! ## Bridge lemmas -/

/-- Folding `min` over a list that the seed bounds below returns the
seed. -/
theorem foldl_min_eq_seed (a : ℤ) :
    ∀ s : List ℤ, (∀ x ∈ s, a ≤ x) → s.foldl min a = a := by
  intro s
  induction s generalizing a with
  | nil => intro _; rfl
  | cons b t ih =>
    intro h
    have hab : a ≤ b := h b (by simp)
    have : min a b = a := min_eq_left hab
    simp only [List.foldl_cons, this]
    exact ih a fun x hx => h x (by simp [hx])

/-- On a list sorted in nondecreasing order, the first element
satisfying a predicate is the minimum of all elements satisfying it. -/
theorem find?_eq_min?_of_sorted (p : ℤ → Bool) :
    ∀ L : List ℤ, L.Pairwise (· ≤ ·) → L.find? p = (L.filter p).min? := by
  intro L
  induction L with
  | nil => intro _; rfl
  | cons a t ih =>
    intro hp
    have ha : ∀ x ∈ t, a ≤ x := (List.pairwise_cons.mp hp).1
    have ht : t.Pairwise (· ≤ ·) := (List.pairwise_cons.mp hp).2
    by_cases hpa : p a = true
    · rw [List.find?_cons_of_pos _ hpa, List.filter_cons_of_pos hpa]
      have : (t.filter p).foldl min a = a :=
        foldl_min_eq_seed a (t.filter p)
          (fun x hx => ha x (List.mem_of_mem_filter hx))
      simp [List.min?, this]
    · rw [List.find?_cons_of_neg _ (by simp [hpa]),
        List.filter_cons_of_neg (by simp [hpa])]
      exact ih ht

/-- C7: `generate_insights` produces exactly the four rules of the
claim, evaluated independently, concatenated in the order
perfect-round, know-by-heart, struggling, milestone, with the
milestone insight taken at the smallest qualifying milestone; with no
trigger the result is empty. -/
theorem c7_thm (stats : SessionStats) (consecutive_failures : List (ℤ × ℤ))
    (confident_count previous_confident_count : ℤ) :
    generate_insights stats consecutive_failures confident_count
        previous_confident_count =
      insights_per_claim stats consecutive_failures confident_count
        previous_confident_count := by
  have hms : (MILESTONES.find? fun m =>
        previous_confident_count < m && m ≤ confident_count) =
      ((MILESTONES.filter fun m =>
        previous_confident_count < m && m ≤ confident_count)).min? :=
    find?_eq_min?_of_sorted _ MILESTONES (by decide)
  unfold generate_insights insights_per_claim check_milestone
  rw [hms]
  have hkbh : check_know_by_heart stats =
      stats.correct_words.filterMap fun word =>
        match word.new_stage with
        | some ns =>
          if word.old_stage < 7 ∧ 7 ≤ ns then
            some ⟨"⭐", "\x27" ++ word.word_source ++ "\x27 теперь Know by heart!"⟩
          else none
        | none => none := by
    unfold check_know_by_heart
    apply List.filterMap_congr
    intro word _
    cases word.new_stage with
    | none => rfl
    | some ns =>
      simp only [KNOW_BY_HEART_STAGE]
      by_cases h1 : word.old_stage < 7 ∧ 7 ≤ ns
      · rw [if_pos ⟨h1.2, h1.1⟩, if_pos h1]
      · rw [if_neg (fun hc => h1 ⟨hc.2, hc.1⟩), if_neg h1]
  have hstr : check_struggling_words stats consecutive_failures =
      stats.incorrect_words.filterMap fun word =>
        if 2 ≤ (consecutive_failures.lookup word.word_id).getD 0 then
          some ⟨"💡", "\x27" ++ word.word_source ++ "\x27 пока не даётся"⟩
        else none := by
    unfold check_struggling_words
    apply List.filterMap_congr
    intro word _
    simp only [MIN_CONSECUTIVE_FAILURES, ge_iff_le]
  rw [hkbh, hstr]
  unfold check_perfect_round
  by_cases hpf : stats.total_count > 0 ∧ stats.total_correct = stats.total_count
  · rw [if_pos hpf, if_pos hpf]
    cases ((MILESTONES.filter fun m =>
        previous_confident_count < m && m ≤ confident_count)).min? with
    | none => simp
    | some m => simp
  · rw [if_neg hpf, if_neg hpf]
    cases ((MILESTONES.filter fun m =>
        previous_confident_count < m && m ≤ confident_count)).min? with
    | none => simp
    | some m => simp

/-- C9: `format_session_complete_message` matches the claim: with
words remaining it is exactly the count message, ignoring stats and
streak; with none remaining it is "Practiced all words!" plus the
accuracy line iff stats are present with positive total, plus the
formatted streak line iff a streak is present. -/
theorem c9_thm (words_remaining : ℕ) (stats : Option PracticeStats)
    (streak_days : Option ℤ) :
    format_session_complete_message words_remaining stats streak_days =
      session_complete_message_per_claim words_remaining stats streak_days := by
  unfold format_session_complete_message session_complete_message_per_claim
  by_cases hr : words_remaining > 0
  · simp [hr]
  · cases stats with
    | none =>
      cases streak_days <;>
        simp [hr, String.append_empty, ← String.append_assoc]
    | some st =>
      by_cases ht : st.total > 0
      · cases streak_days <;>
          simp [hr, ht, PracticeStats.accuracy_text, String.append_empty,
            ← String.append_assoc]
      · cases streak_days <;>
          simp [hr, ht, String.append_empty, ← String.append_assoc]

end WordLearn

namespace WordLearn

/-! ## Repository state model (`repositories/practice_repository.py`)

The PostgreSQL tables become lists of row records; each repository
method becomes a function on a `DB` value mirroring its SQL
statement. -/

/-- Language codes from `config.py`; settings fix `source_lang = EN`
and `target_lang = RU`. -/
inductive Language where
  | en
  | nl
  | ru
deriving DecidableEq

/-- A row of the `words` table (`models/word.py`). -/
structure WordRow where
  id : ℤ
  en : Option String
  nl : Option String
  ru : Option String
deriving DecidableEq

/-- `Word.get_translation`: attribute lookup by language column. -/
def WordRow.get_translation (w : WordRow) : Language → Option String
  | .en => w.en
  | .nl => w.nl
  | .ru => w.ru

/-- A row of the `word_practice` table (one PracticeRecord per
chat × word); `consecutive_failures` was added by migration 003. -/
structure WordPracticeRow where
  id : ℤ
  word_id : ℤ
  chat_id : ℤ
  next_date : PyDateTime
  stage : ℤ
  deleted : Bool
  consecutive_failures : ℤ
deriving DecidableEq

/-- A row of the `today_practice` table (the daily pool): a
word-practice id together with the pool date. -/
structure TodayPracticeRow where
  word_practice_id : ℤ
  date : ℤ
deriving DecidableEq

/-- A row of the `current_practice` table (active session members). -/
structure CurrentPracticeRow where
  chat_id : ℤ
  word_id : ℤ
deriving DecidableEq

/-- A row of the `practice_streaks` table (migration 004). -/
structure StreakRow where
  chat_id : ℤ
  current_streak : ℤ
  last_active_date : Option ℤ
deriving DecidableEq

/-- The database state: one list per table used by the practice
flow. -/
structure DB where
  words : List WordRow
  wordPractice : List WordPracticeRow
  todayPractice : List TodayPracticeRow
  currentPractice : List CurrentPracticeRow
  currentPracticeStats : List PracticeStats
  sessionWordResults : List SessionWordResult
  practiceStreaks : List StreakRow
deriving DecidableEq

/-- The joined row returned by `get_practice_word`
(`practice_repository.py` lines 86-119): the word-practice row plus
its `words` row.  `None` when no non-deleted record (or no word row)
matches. -/
def get_practice_word (db : DB) (chat_id word_id : ℤ) :
    Option (WordPracticeRow × WordRow) :=
  match db.wordPractice.find? fun wp =>
      wp.chat_id = chat_id && wp.word_id = word_id && !wp.deleted with
  | some wp => (db.words.find? fun w => w.id = wp.word_id).map fun w => (wp, w)
  | none => none

/-- `update_practice_word` (`practice_repository.py` lines 121-143):
`UPDATE word_practice SET stage, next_date WHERE chat_id AND word_id`. -/
def update_practice_word (db : DB) (chat_id word_id stage : ℤ)
    (next_date : PyDateTime) : DB :=
  { db with wordPractice := db.wordPractice.map fun wp =>
      if wp.chat_id = chat_id && wp.word_id = word_id then
        { wp with stage := stage, next_date := next_date }
      else wp }

/-- `save_word_result` (`practice_repository.py` lines 598-638):
INSERT with `ON CONFLICT (chat_id, word_id) DO UPDATE` of every
non-key column, i.e. an upsert replacing the whole row. -/
def save_word_result (db : DB) (r : SessionWordResult) : DB :=
  if db.sessionWordResults.any fun x =>
      x.chat_id = r.chat_id && x.word_id = r.word_id then
    { db with sessionWordResults := db.sessionWordResults.map fun x =>
        if x.chat_id = r.chat_id && x.word_id = r.word_id then r else x }
  else { db with sessionWordResults := db.sessionWordResults ++ [r] }

/-- `increment_statistics` (`practice_repository.py` lines 418-440):
upsert adding 1 to `total` and the correctness bit to `correct`. -/
def increment_statistics (db : DB) (chat_id : ℤ) (correct : Bool) : DB :=
  let correct_inc : ℤ := if correct then 1 else 0
  if db.currentPracticeStats.any fun s => s.chat_id = chat_id then
    { db with currentPracticeStats := db.currentPracticeStats.map fun s =>
        if s.chat_id = chat_id then
          { s with correct := s.correct + correct_inc, total := s.total + 1 }
        else s }
  else
    { db with currentPracticeStats :=
        db.currentPracticeStats ++ [⟨chat_id, correct_inc, 1⟩] }

/-- `reset_statistics` (`practice_repository.py` lines 442-451):
DELETE the chat's stats row. -/
def reset_statistics (db : DB) (chat_id : ℤ) : DB :=
  { db with currentPracticeStats :=
      db.currentPracticeStats.filter fun s => !(s.chat_id = chat_id) }

/-- `get_statistics` (`practice_repository.py` lines 397-416): the
chat's stats row, defaulting to zero counters. -/
def get_statistics (db : DB) (chat_id : ℤ) : PracticeStats :=
  (db.currentPracticeStats.find? fun s => s.chat_id = chat_id).getD
    ⟨chat_id, 0, 0⟩

/-- `remove_from_current_practice` (`practice_repository.py` lines
365-382). -/
def remove_from_current_practice (db : DB) (chat_id word_id : ℤ) : DB :=
  { db with currentPractice := db.currentPractice.filter fun cp =>
      !(cp.chat_id = chat_id && cp.word_id = word_id) }

/-- Insertion into a list sorted by `word_id` (ascending), used to
model `ORDER BY word_id`. -/
def insert_by_word_id (r : SessionWordResult) :
    List SessionWordResult → List SessionWordResult
  | [] => [r]
  | x :: xs =>
    if r.word_id ≤ x.word_id then r :: x :: xs
    else x :: insert_by_word_id r xs

/-- Insertion sort by `word_id`. -/
def sort_by_word_id (l : List SessionWordResult) : List SessionWordResult :=
  l.foldr insert_by_word_id []

/-- `get_session_results` (`practice_repository.py` lines 640-658):
the chat's session rows `ORDER BY word_id`. -/
def get_session_results (db : DB) (chat_id : ℤ) : List SessionWordResult :=
  sort_by_word_id (db.sessionWordResults.filter fun r => r.chat_id = chat_id)

/-- `clear_session_results` (`practice_repository.py` lines 660-669). -/
def clear_session_results (db : DB) (chat_id : ℤ) : DB :=
  { db with sessionWordResults :=
      db.sessionWordResults.filter fun r => !(r.chat_id = chat_id) }

/-- `get_consecutive_failures` (`practice_repository.py` lines
759-784): word id to counter map for the requested ids (no
deleted filter in the SQL). -/
def get_consecutive_failures (db : DB) (chat_id : ℤ) (word_ids : List ℤ) :
    List (ℤ × ℤ) :=
  (db.wordPractice.filter fun wp =>
      wp.chat_id = chat_id && word_ids.contains wp.word_id).map
    fun wp => (wp.word_id, wp.consecutive_failures)

/-- `count_confident_words` (`practice_repository.py` lines 788-805):
records with `stage >= 5` and not deleted. -/
def count_confident_words (db : DB) (chat_id : ℤ) : ℕ :=
  (db.wordPractice.filter fun wp =>
      wp.chat_id = chat_id && wp.stage ≥ 5 && !wp.deleted).length

/-- `get_today_practice` (`practice_repository.py` lines 163-183):
pool rows for today joined to the chat's word-practice rows. -/
def get_today_practice (db : DB) (chat_id : ℤ) (today : ℤ) : List ℤ :=
  (db.todayPractice.filter fun tp =>
      tp.date = today && db.wordPractice.any fun wp =>
        wp.id = tp.word_practice_id && wp.chat_id = chat_id).map
    fun tp => tp.word_practice_id

/-- `create_today_practice` (`practice_repository.py` lines 185-228):
select up to `limit` eligible (due, non-deleted) practice ids in
random order — the random order is the explicit `shuffle` — and
insert each with today's date, `ON CONFLICT DO NOTHING`. -/
def create_today_practice (db : DB) (chat_id : ℤ) (now : PyDateTime)
    (limit : ℕ) (shuffle : List ℤ → List ℤ) : List ℤ × DB :=
  let eligible := (db.wordPractice.filter fun wp =>
      wp.chat_id = chat_id && (wp.next_date.le now) && !wp.deleted).map
    fun wp => wp.id
  let practice_ids := (shuffle eligible).take limit
  let db := practice_ids.foldl
    (fun acc pid =>
      if acc.todayPractice.any fun tp =>
          tp.word_practice_id = pid && tp.date = now.day then acc
      else { acc with todayPractice := acc.todayPractice ++ [⟨pid, now.day⟩] })
    db
  (practice_ids, db)

/-- `count_words_to_practice` (`practice_repository.py` lines
279-302): due, non-deleted records of the chat that are in today's
pool. -/
def count_words_to_practice (db : DB) (chat_id : ℤ) (now : PyDateTime) : ℕ :=
  (db.wordPractice.filter fun wp =>
      wp.chat_id = chat_id && (wp.next_date.le now) && !wp.deleted &&
        db.todayPractice.any fun tp =>
          tp.word_practice_id = wp.id && tp.date = now.day).length

/-- `get_words_to_practice` (`practice_repository.py` lines 232-277):
due, non-deleted pool members not already in the chat's current
session, joined with their words, in random order (the explicit
`shuffle`), up to `limit`. -/
def get_words_to_practice (db : DB) (chat_id : ℤ) (now : PyDateTime)
    (limit : ℕ)
    (shuffle : List (WordPracticeRow × WordRow) →
      List (WordPracticeRow × WordRow)) :
    List (WordPracticeRow × WordRow) :=
  let rows := db.wordPractice.filter fun wp =>
    wp.chat_id = chat_id && (wp.next_date.le now) && !wp.deleted &&
      (db.todayPractice.any fun tp =>
        tp.word_practice_id = wp.id && tp.date = now.day) &&
      !(db.currentPractice.any fun cp =>
        cp.chat_id = chat_id && cp.word_id = wp.word_id)
  let joined := rows.filterMap fun wp =>
    (db.words.find? fun w => w.id = wp.word_id).map fun w => (wp, w)
  (shuffle joined).take limit

/-- `start_practice` (`practice_repository.py` lines 304-328):
insert each word id into `current_practice`, `ON CONFLICT DO
NOTHING`. -/
def start_practice (db : DB) (chat_id : ℤ) (word_ids : List ℤ) : DB :=
  word_ids.foldl
    (fun acc wid =>
      if acc.currentPractice.any fun cp =>
          cp.chat_id = chat_id && cp.word_id = wid then acc
      else { acc with currentPractice := acc.currentPractice ++ [⟨chat_id, wid⟩] })
    db

/-- `get_next_practice_word` (`practice_repository.py` lines 330-363):
the first `current_practice` row of the chat whose word-practice row
is not deleted, joined with its word (`LIMIT 1`; the SQL row order is
unspecified, modelled as list order). -/
def get_next_practice_word (db : DB) (chat_id : ℤ) :
    Option (WordPracticeRow × WordRow) :=
  ((db.currentPractice.filter fun cp => cp.chat_id = chat_id).filterMap
    fun cp =>
      match db.wordPractice.find? fun wp =>
          wp.word_id = cp.word_id && wp.chat_id = cp.chat_id && !wp.deleted with
      | some wp =>
        (db.words.find? fun w => w.id = wp.word_id).map fun w => (wp, w)
      | none => none).head?

end WordLearn

namespace WordLearn

/-! ## Service layer (`services/practice_service.py`) -/

/-- Error outcomes of an answer operation (§7 of the spec):
`recordNotFound` models the `AttributeError` raised when
`get_practice_word` returns `None` and `.stage` is accessed
(`practice_service.py` line 145/192); `repositoryUnavailable` models
a storage failure. -/
inductive PracticeError where
  | recordNotFound
  | repositoryUnavailable
deriving DecidableEq

/-- `PracticeService.mark_correct` (`practice_service.py` lines
126-171) with fault injection: the five repository calls run in
separate autocommit statements (each opens its own
`Database.connection()`), so `fail_at = some k` makes the `k`-th
call (0 = `get_practice_word`, 1 = `save_word_result`,
2 = `update_practice_word`, 3 = `increment_statistics`,
4 = `remove_from_current_practice`) fail after the earlier calls
have already committed; `fail_at = none` is the failure-free run.
`r` is the random draw inside `calculate_next_date`. -/
def mark_correct (db : DB) (chat_id word_id today : ℤ) (r : ℕ)
    (fail_at : Option ℕ) : DB × Option PracticeError :=
  if fail_at = some 0 then (db, some .repositoryUnavailable) else
  match get_practice_word db chat_id word_id with
  | none => (db, some .recordNotFound)
  | some practice_word =>
    let old_stage := practice_word.1.stage
    let new_stage := get_new_stage_correct old_stage
    let next_date := calculate_next_date today new_stage r
    let word_source := (practice_word.2.get_translation .ru).getD "?"
    let word_target := (practice_word.2.get_translation .en).getD "?"
    if fail_at = some 1 then (db, some .repositoryUnavailable) else
    let db := save_word_result db
      ⟨chat_id, word_id, "correct", old_stage, some new_stage,
        word_source, word_target⟩
    if fail_at = some 2 then (db, some .repositoryUnavailable) else
    let db := update_practice_word db chat_id word_id new_stage next_date
    if fail_at = some 3 then (db, some .repositoryUnavailable) else
    let db := increment_statistics db chat_id true
    if fail_at = some 4 then (db, some .repositoryUnavailable) else
    (remove_from_current_practice db chat_id word_id, none)

/-- `PracticeService.mark_incorrect` (`practice_service.py` lines
173-218), same shape as `mark_correct` but with the stage fixed by
`get_new_stage_incorrect` and the stats incremented with
`correct=False`. -/
def mark_incorrect (db : DB) (chat_id word_id today : ℤ) (r : ℕ)
    (fail_at : Option ℕ) : DB × Option PracticeError :=
  if fail_at = some 0 then (db, some .repositoryUnavailable) else
  match get_practice_word db chat_id word_id with
  | none => (db, some .recordNotFound)
  | some practice_word =>
    let old_stage := practice_word.1.stage
    let new_stage := get_new_stage_incorrect
    let next_date := calculate_next_date today new_stage r
    let word_source := (practice_word.2.get_translation .ru).getD "?"
    let word_target := (practice_word.2.get_translation .en).getD "?"
    if fail_at = some 1 then (db, some .repositoryUnavailable) else
    let db := save_word_result db
      ⟨chat_id, word_id, "incorrect", old_stage, some new_stage,
        word_source, word_target⟩
    if fail_at = some 2 then (db, some .repositoryUnavailable) else
    let db := update_practice_word db chat_id word_id new_stage next_date
    if fail_at = some 3 then (db, some .repositoryUnavailable) else
    let db := increment_statistics db chat_id false
    if fail_at = some 4 then (db, some .repositoryUnavailable) else
    (remove_from_current_practice db chat_id word_id, none)

/-- `practice_batch_size` (`config.py` line 41). -/
def practice_batch_size : ℕ := 10

/-- `PracticeService.start_practice_session` (`practice_service.py`
lines 93-124): reuse today's pool if `get_today_practice` returns a
non-empty list, otherwise create it (`create_daily_pool`, with
`pool_size` standing for `random.randint(daily_pool_min,
daily_pool_max)`); then select a batch and add it to the current
session.  The two `ORDER BY RANDOM()` orders are the explicit
shuffles. -/
def start_practice_session (db : DB) (chat_id : ℤ) (now : PyDateTime)
    (pool_size : ℕ) (shuffle1 : List ℤ → List ℤ)
    (shuffle2 : List (WordPracticeRow × WordRow) →
      List (WordPracticeRow × WordRow)) :
    List (WordPracticeRow × WordRow) × DB :=
  let pool := get_today_practice db chat_id now.day
  let db := if pool.isEmpty then
      (create_today_practice db chat_id now pool_size shuffle1).2
    else db
  let words := get_words_to_practice db chat_id now practice_batch_size shuffle2
  let db := if words.isEmpty then db
    else start_practice db chat_id (words.map fun x => x.2.id)
  (words, db)

/-! ## Handler layer (`handlers/practice.py`, `_show_practice_word`
lines 129-201) -/

/-- The `SessionStats` value the handler builds from the repository
state before clearing (`handlers/practice.py` lines 143-157). -/
def session_stats_of (db : DB) (chat_id : ℤ) : SessionStats :=
  let stats := get_statistics db chat_id
  let session_results := get_session_results db chat_id
  let correct_words := session_results.filter fun r => r.result = "correct"
  let incorrect_words := session_results.filter fun r => r.result = "incorrect"
  let deleted_words := session_results.filter fun r => r.result = "deleted"
  ⟨correct_words, incorrect_words, deleted_words, stats.correct, stats.total⟩

/-- The insights the handler generates (`handlers/practice.py` lines
159-180): consecutive failures for the incorrect words, the
confident-word count, and the pre-session count obtained by
subtracting the words that became confident this session. -/
def insights_of (db : DB) (chat_id : ℤ) : List Insight :=
  let session_stats := session_stats_of db chat_id
  let incorrect_word_ids := session_stats.incorrect_words.map fun w => w.word_id
  let consecutive_failures :=
    get_consecutive_failures db chat_id incorrect_word_ids
  let confident_count := count_confident_words db chat_id
  let new_confident := session_stats.correct_words.countP fun w =>
    w.old_stage < 5 && (match w.new_stage with
      | some ns => decide (ns ≥ 5)
      | none => false)
  let previous_confident_count := (confident_count : ℤ) - new_confident
  generate_insights session_stats consecutive_failures confident_count
    previous_confident_count

/-- What `_show_practice_word` sends: either the next word's display
text, or a batch/day completion message together with the remaining
count (passed to `practice_more_keyboard`). -/
inductive ShowOut where
  | word (target_text : String)
  | complete (text : String) (count : ℕ)
deriving DecidableEq

/-- `_show_practice_word` (`handlers/practice.py` lines 129-201) as a
state transition: if a session word remains it is shown and nothing
changes; otherwise the remaining due count decides between day
finalization (build stats and insights, format them, then reset the
stats row and clear the session results) and the plain batch message
with all state preserved.  No branch touches `practice_streaks`. -/
def show_practice_word (db : DB) (chat_id : ℤ) (now : PyDateTime) :
    ShowOut × DB :=
  match get_next_practice_word db chat_id with
  | some practice_word =>
    (ShowOut.word ((practice_word.2.get_translation .ru).getD "?"), db)
  | none =>
    let count := count_words_to_practice db chat_id now
    if count = 0 then
      let text := format_session_stats (session_stats_of db chat_id)
        (insights_of db chat_id)
      let db := reset_statistics db chat_id
      let db := clear_session_results db chat_id
      (ShowOut.complete text count, db)
    else
      (ShowOut.complete "Practiced all words!" count, db)

end WordLearn

namespace WordLearn

/-! ## Sample states for witnesses and counterexamples -/

/-- A sample vocabulary word. -/
def sample_word : WordRow := ⟨1, some "cat", none, some "кошка"⟩

/-- Chat 1 practising word 1 (stage 2, due, in the current session,
daily pool of one, no failures yet, streak row present). -/
def sample_db : DB :=
  { words := [sample_word],
    wordPractice := [⟨1, 1, 1, ⟨10, 30⟩, 2, false, 0⟩],
    todayPractice := [⟨1, 10⟩],
    currentPractice := [⟨1, 1⟩],
    currentPracticeStats := [],
    sessionWordResults := [],
    practiceStreaks := [⟨1, 3, some 9⟩] }

/-- Like `sample_db` but with 2 consecutive failures recorded. -/
def sample_db_cf : DB :=
  { sample_db with wordPractice := [⟨1, 1, 1, ⟨10, 30⟩, 2, false, 2⟩] }

/-- An empty database (no practice record for any chat). -/
def empty_db : DB := ⟨[], [], [], [], [], [], []⟩

/-! ## Projection lemmas for the repository operations -/

theorem save_word_result_wordPractice (db : DB) (r : SessionWordResult) :
    (save_word_result db r).wordPractice = db.wordPractice := by
  unfold save_word_result
  split <;> rfl

theorem increment_statistics_wordPractice (db : DB) (c : ℤ) (b : Bool) :
    (increment_statistics db c b).wordPractice = db.wordPractice := by
  unfold increment_statistics
  split <;> split <;> rfl

theorem remove_from_current_practice_wordPractice (db : DB) (c w : ℤ) :
    (remove_from_current_practice db c w).wordPractice = db.wordPractice := rfl

/-- `update_practice_word` rewrites only `stage` and `next_date`; the
consecutive-failure counters of all records are untouched. -/
theorem update_practice_word_map_cf (db : DB) (c w s : ℤ) (nd : PyDateTime) :
    (update_practice_word db c w s nd).wordPractice.map
        WordPracticeRow.consecutive_failures =
      db.wordPractice.map WordPracticeRow.consecutive_failures := by
  simp only [update_practice_word, List.map_map]
  apply List.map_congr_left
  intro a _
  simp only [Function.comp_apply]
  split <;> rfl

/-- C1: neither `mark_correct` nor `mark_incorrect` changes any
consecutive-failure counter (the repository's
`reset_consecutive_failures` and `increment_consecutive_failures`
are never called by the service): the counters after a failure-free
answer equal the counters before.  Concretely, an incorrect answer
leaves the counter at 0 (the claim requires 1) and a correct answer
at a counter of 2 leaves it at 2 (the claim requires 0). -/
theorem c1_thm (db : DB) (chat_id word_id today : ℤ) (r : ℕ) :
    ((mark_correct db chat_id word_id today r none).1.wordPractice.map
        WordPracticeRow.consecutive_failures =
      db.wordPractice.map WordPracticeRow.consecutive_failures) ∧
    ((mark_incorrect db chat_id word_id today r none).1.wordPractice.map
        WordPracticeRow.consecutive_failures =
      db.wordPractice.map WordPracticeRow.consecutive_failures) ∧
    (mark_incorrect sample_db 1 1 10 0 none).1.wordPractice.map
        WordPracticeRow.consecutive_failures = [0] ∧
    (mark_correct sample_db_cf 1 1 10 0 none).1.wordPractice.map
        WordPracticeRow.consecutive_failures = [2] := by
  refine ⟨?_, ?_, by decide, by decide⟩
  · unfold mark_correct
    rcases hg : get_practice_word db chat_id word_id with _ | pw
    · simp [hg]
    · simp [hg, save_word_result_wordPractice,
        increment_statistics_wordPractice,
        remove_from_current_practice_wordPractice, update_practice_word_map_cf]
  · unfold mark_incorrect
    rcases hg : get_practice_word db chat_id word_id with _ | pw
    · simp [hg]
    · simp [hg, save_word_result_wordPractice,
        increment_statistics_wordPractice,
        remove_from_current_practice_wordPractice, update_practice_word_map_cf]

end WordLearn

namespace WordLearn

/-- C3 counterexample: `mark_correct` is not atomic.  With the
repository failing at the third call (`update_practice_word`), after
`get_practice_word` and `save_word_result` succeeded, the operation
fails but the state has already changed: a SessionWordResult is
recorded without the corresponding stage update. -/
theorem c3_counterexample :
    (mark_correct sample_db 1 1 10 0 (some 2)).2 =
      some PracticeError.repositoryUnavailable ∧
    (mark_correct sample_db 1 1 10 0 (some 2)).1 ≠ sample_db := by
  constructor
  · decide
  · decide

/-- C3 amended: an answer for a chat/word pair with no non-deleted
PracticeRecord fails with a record-not-found error (the `None`
returned by `get_practice_word` makes the `.stage` access raise) and
leaves the state exactly unchanged, and likewise a repository failure
in the initial lookup (before the first write) leaves the state
unchanged; failures after the first write, however, may leave a
partial update (see the counterexample). -/
theorem c3_amended_thm (db : DB) (chat_id word_id today : ℤ) (r : ℕ) :
    (get_practice_word db chat_id word_id = none →
      mark_correct db chat_id word_id today r none =
        (db, some PracticeError.recordNotFound) ∧
      mark_incorrect db chat_id word_id today r none =
        (db, some PracticeError.recordNotFound)) ∧
    mark_correct db chat_id word_id today r (some 0) =
      (db, some PracticeError.repositoryUnavailable) ∧
    mark_incorrect db chat_id word_id today r (some 0) =
      (db, some PracticeError.repositoryUnavailable) := by
  refine ⟨fun h => ⟨?_, ?_⟩, ?_, ?_⟩
  · unfold mark_correct
    simp [h]
  · unfold mark_incorrect
    simp [h]
  · unfold mark_correct
    simp
  · unfold mark_incorrect
    simp

/-- C3 amended, witness: chat 1 has no practice record for word 1 in
the empty database. -/
theorem c3_amended_witness :
    (mark_correct empty_db 1 1 10 0 none =
        (empty_db, some PracticeError.recordNotFound) ∧
      mark_incorrect empty_db 1 1 10 0 none =
        (empty_db, some PracticeError.recordNotFound)) ∧
    mark_correct empty_db 1 1 10 0 (some 0) =
      (empty_db, some PracticeError.repositoryUnavailable) ∧
    mark_incorrect empty_db 1 1 10 0 (some 0) =
      (empty_db, some PracticeError.repositoryUnavailable) :=
  ⟨(c3_amended_thm empty_db 1 1 10 0).1 (by decide),
   (c3_amended_thm empty_db 1 1 10 0).2.1,
   (c3_amended_thm empty_db 1 1 10 0).2.2⟩

/-! ## C5: daily-pool reuse -/

/-- Chat 1 with a single practice record that becomes due at day 10,
minute 30; no pool yet. -/
def sample_db_c5 : DB :=
  { words := [⟨2, some "dog", none, some "собака"⟩],
    wordPractice := [⟨5, 2, 1, ⟨10, 30⟩, 1, false, 0⟩],
    todayPractice := [],
    currentPractice := [],
    currentPracticeStats := [],
    sessionWordResults := [],
    practiceStreaks := [] }

/-- Like `sample_db_c5`, with a non-empty pool for day 10. -/
def sample_db_c5b : DB :=
  { sample_db_c5 with todayPractice := [⟨5, 10⟩] }

/-- `start_practice` only inserts into `current_practice`. -/
theorem start_practice_todayPractice (chat_id : ℤ) (word_ids : List ℤ) :
    ∀ db : DB, (start_practice db chat_id word_ids).todayPractice =
      db.todayPractice := by
  induction word_ids with
  | nil => intro db; rfl
  | cons a t ih =>
    intro db
    have h1 : start_practice db chat_id (a :: t) =
        start_practice
          (if db.currentPractice.any fun cp =>
              cp.chat_id = chat_id && cp.word_id = a then db
            else { db with currentPractice :=
              db.currentPractice ++ [⟨chat_id, a⟩] })
          chat_id t := rfl
    rw [h1, ih]
    split <;> rfl

/-- C5 counterexample: a pool created while no word was due is empty
and indistinguishable from an absent pool, so a session start later
the same day creates the pool again and adds the newly-due record —
the pool does not stay unchanged after its first creation.  Day 10:
the first session start (minute 0, word due from minute 30) creates
today's (empty) pool; the second (minute 50) adds practice id 5 to
it. -/
theorem c5_counterexample :
    ((start_practice_session
        ((start_practice_session sample_db_c5 1 ⟨10, 0⟩ 70 id id).2)
        1 ⟨10, 50⟩ 70 id id).2).todayPractice ≠
      ((start_practice_session sample_db_c5 1 ⟨10, 0⟩ 70 id id).2).todayPractice := by
  decide

/-- C5 amended: whenever today's pool is non-empty, a session start
reuses it unchanged — no rows are added to or removed from
`today_practice`, for any pool size and any selection orders; only a
start that finds an empty (equivalently, absent) pool for today
creates one. -/
theorem c5_amended_thm (db : DB) (chat_id : ℤ) (now : PyDateTime)
    (pool_size : ℕ) (shuffle1 : List ℤ → List ℤ)
    (shuffle2 : List (WordPracticeRow × WordRow) →
      List (WordPracticeRow × WordRow))
    (h : get_today_practice db chat_id now.day ≠ []) :
    (start_practice_session db chat_id now pool_size shuffle1
        shuffle2).2.todayPractice = db.todayPractice := by
  unfold start_practice_session
  have hne : (get_today_practice db chat_id now.day).isEmpty = false := by
    cases hq : get_today_practice db chat_id now.day with
    | nil => exact absurd hq h
    | cons a t => rfl
  simp only [hne, Bool.false_eq_true, if_false]
  split
  · rfl
  · exact start_practice_todayPractice chat_id _ db

/-- C5 amended, witness: the pool for day 10 is non-empty and a
session start at minute 50 leaves it unchanged. -/
theorem c5_amended_witness :
    (start_practice_session sample_db_c5b 1 ⟨10, 50⟩ 70 id id).2.todayPractice =
      sample_db_c5b.todayPractice :=
  c5_amended_thm sample_db_c5b 1 ⟨10, 50⟩ 70 id id (by decide)

end WordLearn

namespace WordLearn

/-- Chat 1's session just emptied with nothing left due today: the
single record is scheduled for day 11, the pool is day 10's, the
session stats and one result row are present, and a streak row
exists. -/
def sample_db_done : DB :=
  { words := [sample_word],
    wordPractice := [⟨1, 1, 1, ⟨11, 0⟩, 3, false, 0⟩],
    todayPractice := [⟨1, 10⟩],
    currentPractice := [],
    currentPracticeStats := [⟨1, 1, 1⟩],
    sessionWordResults := [⟨1, 1, "correct", 2, some 3, "кошка", "cat"⟩],
    practiceStreaks := [⟨1, 3, some 9⟩] }

/-- C2: when the session is empty, the handler finalizes only if the
remaining due count is zero — it returns the message formatted from
the SessionStats and Insights built from the pre-clear state, then
deletes the chat's stats row and session results; with a nonzero
count the state is fully preserved for the next batch.  In every
case `practice_streaks` is untouched: the handler never calls
`update_streak`, so no streak update happens on day completion. -/
theorem c2_thm (db : DB) (chat_id : ℤ) (now : PyDateTime) :
    (show_practice_word db chat_id now).2.practiceStreaks =
      db.practiceStreaks ∧
    (get_next_practice_word db chat_id = none →
      count_words_to_practice db chat_id now = 0 →
      (show_practice_word db chat_id now).1 =
        ShowOut.complete
          (format_session_stats (session_stats_of db chat_id)
            (insights_of db chat_id)) 0 ∧
      ((show_practice_word db chat_id now).2.currentPracticeStats.filter
        fun s => s.chat_id = chat_id) = [] ∧
      ((show_practice_word db chat_id now).2.sessionWordResults.filter
        fun r => r.chat_id = chat_id) = []) ∧
    (get_next_practice_word db chat_id = none →
      count_words_to_practice db chat_id now ≠ 0 →
      (show_practice_word db chat_id now).2 = db) := by
  rcases hg : get_next_practice_word db chat_id with _ | pw
  · by_cases hc : count_words_to_practice db chat_id now = 0
    · refine ⟨?_, fun _ _ => ⟨?_, ?_, ?_⟩, fun _ hne => absurd hc hne⟩
      · simp [show_practice_word, hg, hc, reset_statistics,
          clear_session_results]
      · simp [show_practice_word, hg, hc]
      · simp only [show_practice_word, hg, hc, if_true, clear_session_results,
          reset_statistics]
        rw [List.filter_filter]
        refine List.filter_eq_nil_iff.mpr fun s _ => ?_
        by_cases h : s.chat_id = chat_id <;> simp [h]
      · simp only [show_practice_word, hg, hc, if_true, clear_session_results,
          reset_statistics]
        rw [List.filter_filter]
        refine List.filter_eq_nil_iff.mpr fun s _ => ?_
        by_cases h : s.chat_id = chat_id <;> simp [h]
    · refine ⟨?_, fun _ h0 => absurd h0 hc, fun _ _ => ?_⟩
      · simp [show_practice_word, hg, hc]
      · simp [show_practice_word, hg, hc]
  · refine ⟨by simp [show_practice_word, hg], ?_, ?_⟩ <;>
    · intro h
      simp at h

/-- C2 witness: chat 1 finishes its last session word with count 0 —
the stats row and result row are cleared, the completion message is
built from the pre-clear stats and insights, and the streak row is
left exactly as it was. -/
theorem c2_witness :
    (show_practice_word sample_db_done 1 ⟨10, 40⟩).2.practiceStreaks =
      sample_db_done.practiceStreaks ∧
    (show_practice_word sample_db_done 1 ⟨10, 40⟩).1 =
      ShowOut.complete
        (format_session_stats (session_stats_of sample_db_done 1)
          (insights_of sample_db_done 1)) 0 ∧
    ((show_practice_word sample_db_done 1 ⟨10, 40⟩).2.currentPracticeStats.filter
      fun s => s.chat_id = 1) = [] ∧
    ((show_practice_word sample_db_done 1 ⟨10, 40⟩).2.sessionWordResults.filter
      fun r => r.chat_id = 1) = [] := by
  have h := c2_thm sample_db_done 1 ⟨10, 40⟩
  have h2 := h.2.1 (by decide) (by decide)
  exact ⟨h.1, h2.1, h2.2.1, h2.2.2⟩

end WordLearn
